import Mathlib

/-!
Shallow embedding of the TogMic audio-endpoint control layer
(`src-tauri/src/lib.rs`, `src-tauri/src/audio/mod.rs`,
`src-tauri/src/audio/windows.rs`).

Platform calls (`enumerate_input_devices`, `get_mute_state`,
`set_mute_state`) are modelled by a record of pure functions
(`Controller`); side effects of the command surface and the background
synchronizer (storing the published flag, emitting events, tray update,
feedback sounds, hardware applies) are modelled as an explicit trace of
`Action`s produced in program order.  A detached worker's actions are
kept in a separate `workerTrace`, scheduled after the spawning command's
own trace.
-/

namespace TogMic

/-- Mirror of `AudioDevice` (`audio/mod.rs`). -/
structure AudioDevice where
  id : String
  name : String
  is_default : Bool
  deriving DecidableEq, Repr

/-- Mirror of `HotkeyProfile` (`lib.rs`). -/
structure HotkeyProfile where
  id : String
  name : String
  toggle_key : String
  device_ids : List String
  ignore_modifiers : Bool
  deriving DecidableEq, Repr

/-- Pure model of the platform audio controller trait (`audio/mod.rs`):
the behaviour of `enumerate_input_devices`, `get_mute_state` and
`set_mute_state` during one command / tick. -/
structure Controller where
  enumerate : Except String (List AudioDevice)
  getMute : String → Except String Bool
  setMute : String → Bool → Except String Unit

/-- Observable side effects, in program order. -/
inductive Action where
  | enumerateDevices
  | hwGetMute (device_id : String)
  | hwSetMute (device_id : String) (muted : Bool)
  | storeMuted (muted : Bool)
  | playSound (cue : String)
  | emitMuteChanged (muted : Bool)
  | emitDevicesChanged (ids : List String)
  | updateTray (muted : Bool)
  | clearEndpointCache
  | initThread
  deriving DecidableEq, Repr

/-- Rust `Result::unwrap_or`. -/
def unwrapOr (r : Except String α) (fallback : α) : α :=
  match r with
  | .ok a => a
  | .error _ => fallback

/-- `const ALL_DEVICES_ID: &str = "all-mics";` (`lib.rs:118`). -/
def ALL_DEVICES_ID : String := "all-mics"

/-- Mirror of `profile_uses_all_devices` (`lib.rs:132`). -/
def profile_uses_all_devices (profile : HotkeyProfile) : Bool :=
  profile.device_ids.length > 1 ||
    profile.device_ids.any (fun id => id == ALL_DEVICES_ID)

/-- Mirror of `resolve_device_ids` (`lib.rs:136`), paired with the trace
of platform calls it performs. -/
def resolve_device_ids (controller : Controller) (profile : HotkeyProfile) :
    Except String (List String) × List Action :=
  if profile_uses_all_devices profile then
    match controller.enumerate with
    | .error e => (.error e, [Action.enumerateDevices])
    | .ok devices =>
        (.ok (devices.map (fun device => device.id)), [Action.enumerateDevices])
  else
    (.ok profile.device_ids, [])

/-- The `for device in devices` loop of `get_profile_mute_state`
(`lib.rs:159`): query each device (substituting `fallback` on failure),
return `false` at the first unmuted device, `true` past the end. -/
def gpms_loop (controller : Controller) (fallback : Bool) :
    List AudioDevice → Bool × List Action
  | [] => (true, [])
  | device :: rest =>
      let muted := unwrapOr (controller.getMute device.id) fallback
      if muted then
        let (r, tr) := gpms_loop controller fallback rest
        (r, Action.hwGetMute device.id :: tr)
      else
        (false, [Action.hwGetMute device.id])

/-- Mirror of `get_profile_mute_state` (`lib.rs:148`), paired with the
trace of platform calls it performs. -/
def get_profile_mute_state (controller : Controller) (profile : HotkeyProfile)
    (fallback : Bool) : Except String Bool × List Action :=
  if profile_uses_all_devices profile then
    match controller.enumerate with
    | .error e => (.error e, [Action.enumerateDevices])
    | .ok devices =>
        if devices.isEmpty then (.ok fallback, [Action.enumerateDevices])
        else
          let (r, tr) := gpms_loop controller fallback devices
          (.ok r, Action.enumerateDevices :: tr)
  else
    match profile.device_ids.head? with
    | some first_device =>
        (.ok (unwrapOr (controller.getMute first_device) fallback),
         [Action.hwGetMute first_device])
    | none => (.ok fallback, [])

/-- The loop's value is the AND-reduction over the device list. -/
theorem gpms_loop_fst (controller : Controller) (fallback : Bool)
    (devices : List AudioDevice) :
    (gpms_loop controller fallback devices).fst =
      devices.all (fun device => unwrapOr (controller.getMute device.id) fallback) := by
  induction devices with
  | nil => simp [gpms_loop]
  | cons d rest ih =>
      by_cases h : unwrapOr (controller.getMute d.id) fallback
      · simp [gpms_loop, h, ih]
      · simp [gpms_loop, h]

/-- The loop stops querying at the first unmuted device. -/
theorem gpms_loop_short_circuit (controller : Controller) (fallback : Bool)
    (pre : List AudioDevice) (d : AudioDevice) (post : List AudioDevice)
    (hpre : ∀ d' ∈ pre, unwrapOr (controller.getMute d'.id) fallback = true)
    (hd : unwrapOr (controller.getMute d.id) fallback = false) :
    gpms_loop controller fallback (pre ++ d :: post) =
      (false, pre.map (fun d' => Action.hwGetMute d'.id) ++ [Action.hwGetMute d.id]) := by
  induction pre with
  | nil => simp [gpms_loop, hd]
  | cons p rest ih =>
      have hp : unwrapOr (controller.getMute p.id) fallback = true :=
        hpre p (by simp)
      have ih' := ih (fun d' hmem => hpre d' (by simp [hmem]))
      simp [gpms_loop, hp, ih']

/-- Concrete controller used by witnesses: three capture devices, the
third unmuted, one device whose mute query fails. -/
def wDevA : AudioDevice := ⟨"idA", "Mic A", true⟩

def wDevB : AudioDevice := ⟨"idB", "Mic B", false⟩

def wDevC : AudioDevice := ⟨"idC", "Mic C", false⟩

def wController : Controller where
  enumerate := .ok [wDevA, wDevB, wDevC]
  getMute := fun id =>
    if id == "idA" then .ok true
    else if id == "idB" then .ok true
    else if id == "idC" then .ok false
    else .error "DeviceNotFound"
  setMute := fun id _ => if id == "bad" then .error "PlatformError" else .ok ()

/-- A profile that uses the "all-mics" sentinel. -/
def wProfileAll : HotkeyProfile := ⟨"p1", "All", "M", [ALL_DEVICES_ID], true⟩

/-- A profile that lists a single explicit device. -/
def wProfileOne : HotkeyProfile := ⟨"p2", "One", "M", ["idC"], false⟩

/-- C9: `resolve_device_ids` returns the freshly enumerated id list
exactly when the profile lists more than one device or contains the
"all-mics" sentinel, and otherwise returns the profile's explicit list
unchanged. -/
theorem resolve_device_ids_spec (controller : Controller) (profile : HotkeyProfile) :
    (profile_uses_all_devices profile = true ↔
      (profile.device_ids.length > 1 ∨ ALL_DEVICES_ID ∈ profile.device_ids)) ∧
    (profile_uses_all_devices profile = true →
      ∀ devices, controller.enumerate = .ok devices →
        (resolve_device_ids controller profile).fst =
          .ok (devices.map (fun device => device.id))) ∧
    (profile_uses_all_devices profile = false →
      (resolve_device_ids controller profile).fst = .ok profile.device_ids) := by
  refine ⟨?_, ?_, ?_⟩
  · simp [profile_uses_all_devices, List.any_eq_true]
  · intro h devices henum
    simp [resolve_device_ids, h, henum]
  · intro h
    simp [resolve_device_ids, h]

/-- Witness for C9 at concrete inputs: the "all-mics" profile resolves
to the full enumerated id list, the explicit profile to its own list. -/
theorem resolve_device_ids_spec_witness :
    (resolve_device_ids wController wProfileAll).fst = .ok ["idA", "idB", "idC"] ∧
    (resolve_device_ids wController wProfileOne).fst = .ok ["idC"] := by
  constructor
  · exact (resolve_device_ids_spec wController wProfileAll).2.1 (by decide)
      [wDevA, wDevB, wDevC] rfl
  · exact (resolve_device_ids_spec wController wProfileOne).2.2 (by decide)

/-- C1: `get_profile_mute_state` for an "all" profile returns the
fallback on empty enumeration, otherwise the AND-reduction over every
enumerated device with the fallback substituted for failed queries,
short-circuiting (no further queries) at the first unmuted device; for
an explicit non-"all" profile it returns the first listed device's mute
state with the fallback substituted on failure. -/
theorem get_profile_mute_state_spec (controller : Controller)
    (profile : HotkeyProfile) (fallback : Bool) :
    (profile_uses_all_devices profile = true →
      (controller.enumerate = .ok [] →
        (get_profile_mute_state controller profile fallback).fst = .ok fallback) ∧
      (∀ devices, devices ≠ [] → controller.enumerate = .ok devices →
        (get_profile_mute_state controller profile fallback).fst =
          .ok (devices.all
            (fun device => unwrapOr (controller.getMute device.id) fallback))) ∧
      (∀ pre d post, controller.enumerate = .ok (pre ++ d :: post) →
        (∀ d' ∈ pre, unwrapOr (controller.getMute d'.id) fallback = true) →
        unwrapOr (controller.getMute d.id) fallback = false →
        get_profile_mute_state controller profile fallback =
          (.ok false, Action.enumerateDevices ::
            (pre.map (fun d' => Action.hwGetMute d'.id) ++ [Action.hwGetMute d.id])))) ∧
    (profile_uses_all_devices profile = false →
      ∀ first_device rest, profile.device_ids = first_device :: rest →
        (get_profile_mute_state controller profile fallback).fst =
          .ok (unwrapOr (controller.getMute first_device) fallback)) := by
  constructor
  · intro hall
    refine ⟨?_, ?_, ?_⟩
    · intro henum
      simp [get_profile_mute_state, hall, henum]
    · intro devices hne henum
      simp [get_profile_mute_state, hall, henum, hne, gpms_loop_fst]
    · intro pre d post henum hpre hd
      have hne : pre ++ d :: post ≠ [] := by simp
      have hloop := gpms_loop_short_circuit controller fallback pre d post hpre hd
      simp [get_profile_mute_state, hall, henum, hne, hloop]
  · intro hall first_device rest hids
    simp [get_profile_mute_state, hall, hids]

/-- Witness for C1 at concrete inputs: devices [muted, muted, unmuted]
give aggregate false; the explicit profile reports its first device. -/
theorem get_profile_mute_state_spec_witness :
    (get_profile_mute_state wController wProfileAll false).fst = .ok false ∧
    (get_profile_mute_state wController wProfileOne true).fst = .ok false := by
  constructor
  · have h := ((get_profile_mute_state_spec wController wProfileAll false).1
      (by decide)).2.1 [wDevA, wDevB, wDevC] (by decide) rfl
    simpa using h
  · have h := (get_profile_mute_state_spec wController wProfileOne true).2
      (by decide) "idC" [] rfl
    simpa using h

/-! ### Hotkey registration (`register_hotkey`, `lib.rs:343`) -/

/-- Model of the global-shortcut plugin as seen by `register_hotkey`:
whether a shortcut string parses (`Shortcut::from_str`), whether it is
already registered, and whether `on_shortcut` fails for it. -/
structure ShortcutOs where
  parses : String → Bool
  isRegistered : String → Bool
  regError : String → Option String

/-- The eight modifier prefixes of `register_hotkey` (`lib.rs:350`). -/
def modifier_prefix_list : List String :=
  ["", "CommandOrControl+", "Alt+", "Shift+", "CommandOrControl+Alt+",
   "CommandOrControl+Shift+", "Alt+Shift+", "CommandOrControl+Alt+Shift+"]

/-- The shortcut strings `register_hotkey` builds (`lib.rs:348`). -/
def hotkeys_to_register (hotkey : String) (ignore_modifiers : Option Bool) :
    List String :=
  if ignore_modifiers.getD false then
    modifier_prefix_list.map (fun p => p ++ hotkey)
  else
    [hotkey]

/-- The `for hotkey_str in hotkeys_to_register` loop (`lib.rs:369`):
skip strings that fail to parse or are already registered, abort with
the error of the first failing `on_shortcut`, and return the list of
variants actually registered (the Rust code registers them as a side
effect and returns `Ok(())`). -/
def register_hotkey_loop (os : ShortcutOs) : List String → Except String (List String)
  | [] => .ok []
  | s :: rest =>
      if !os.parses s then register_hotkey_loop os rest
      else if os.isRegistered s then register_hotkey_loop os rest
      else
        match os.regError s with
        | some e => .error ("Failed to register hotkey " ++ s ++ ": " ++ e)
        | none =>
            match register_hotkey_loop os rest with
            | .error e => .error e
            | .ok l => .ok (s :: l)

/-- Mirror of `register_hotkey` (`lib.rs:343`); the `Ok` payload is the
list of shortcut variants left registered by the call. -/
def register_hotkey (os : ShortcutOs) (hotkey : String)
    (ignore_modifiers : Option Bool) : Except String (List String) :=
  register_hotkey_loop os (hotkeys_to_register hotkey ignore_modifiers)

theorem register_hotkey_loop_ok (os : ShortcutOs) (l : List String)
    (h : ∀ s ∈ l, os.regError s = none) :
    register_hotkey_loop os l =
      .ok (l.filter (fun s => os.parses s && !os.isRegistered s)) := by
  induction l with
  | nil => simp [register_hotkey_loop]
  | cons s rest ih =>
      have hs : os.regError s = none := h s (by simp)
      have ih' := ih (fun s' hmem => h s' (by simp [hmem]))
      by_cases hp : os.parses s
      · by_cases hr : os.isRegistered s
        · simp [register_hotkey_loop, hp, hr, ih', List.filter_cons]
        · simp [register_hotkey_loop, hp, hr, hs, ih', List.filter_cons]
      · simp [register_hotkey_loop, hp, ih', List.filter_cons]

/-- C8: with `ignore_modifiers = true`, `register_hotkey` attempts
exactly the 8 modifier combinations of the base key; variants that fail
to parse (OS-rejected) or are already bound are skipped silently, and
when no attempted variant's registration itself errors the call
succeeds with exactly the remaining variants active. -/
theorem register_hotkey_ignore_modifiers_spec (os : ShortcutOs) (hotkey : String)
    (h : ∀ s ∈ hotkeys_to_register hotkey (some true), os.regError s = none) :
    (hotkeys_to_register hotkey (some true)).length = 8 ∧
    hotkeys_to_register hotkey (some true) =
      modifier_prefix_list.map (fun p => p ++ hotkey) ∧
    register_hotkey os hotkey (some true) =
      .ok ((hotkeys_to_register hotkey (some true)).filter
        (fun s => os.parses s && !os.isRegistered s)) := by
  refine ⟨?_, ?_, ?_⟩
  · simp [hotkeys_to_register, modifier_prefix_list]
  · simp [hotkeys_to_register]
  · exact register_hotkey_loop_ok os _ h

/-- Shortcut-plugin model for the C8 witness: three modifier variants of
"M" are already bound, none errors on registration. -/
def wShortcutOs : ShortcutOs where
  parses := fun _ => true
  isRegistered := fun s =>
    s == "M" || s == "Alt+M" || s == "Shift+M"
  regError := fun _ => none

/-- Witness for C8: base key "M", 8 variants attempted, 3 already
bound, the call succeeds with the remaining 5 active. -/
theorem register_hotkey_ignore_modifiers_spec_witness :
    (hotkeys_to_register "M" (some true)).length = 8 ∧
    register_hotkey wShortcutOs "M" (some true) =
      .ok ["CommandOrControl+M", "CommandOrControl+Alt+M",
           "CommandOrControl+Shift+M", "Alt+Shift+M",
           "CommandOrControl+Alt+Shift+M"] := by
  have h := register_hotkey_ignore_modifiers_spec wShortcutOs "M"
    (fun s _ => rfl)
  refine ⟨h.1, ?_⟩
  rw [h.2.2]
  rfl

/-! ### Windows endpoint handle cache (`audio/windows.rs`) -/

/-- Opaque model of an activated `IAudioEndpointVolume` handle. -/
abbrev Endpoint := Nat

/-- Model of the Windows device manager as seen by one call:
`GetDefaultAudioEndpoint` (current default capture device id),
`GetDevice`, `Activate`, and the endpoint's `GetMute` / `SetMute`. -/
structure WinOs where
  defaultCapture : Except String String
  getDevice : String → Except String String
  activate : String → Except String Endpoint
  getMuteEp : Endpoint → Except String Bool
  setMuteEp : Endpoint → Bool → Except String Unit

/-- The thread-local `THREAD_ENDPOINT_CACHE` (`windows.rs:21`),
modelled as an association list keyed by device id. -/
abbrev EndpointCache := List (String × Endpoint)

def cacheFind (cache : EndpointCache) (k : String) : Option Endpoint :=
  (cache.find? (fun e => e.fst == k)).map Prod.snd

def cacheInsert (cache : EndpointCache) (k : String) (v : Endpoint) : EndpointCache :=
  (k, v) :: cache.filter (fun e => e.fst != k)

/-- Mirror of `get_cached_endpoint_for_id` (`windows.rs:99`): return a
cache hit unchanged; on a miss resolve the device (the current default
for `"default-mic"` or `""`, `GetDevice` otherwise), activate the
endpoint, and insert it into the cache under `device_id`. -/
def get_cached_endpoint_for_id (os : WinOs) (cache : EndpointCache)
    (device_id : String) : Except String Endpoint × EndpointCache :=
  match cacheFind cache device_id with
  | some ep => (.ok ep, cache)
  | none =>
      let devRes :=
        if device_id == "default-mic" || device_id.isEmpty then os.defaultCapture
        else os.getDevice device_id
      match devRes with
      | .error e => (.error e, cache)
      | .ok dev =>
          match os.activate dev with
          | .error e => (.error e, cache)
          | .ok endpoint => (.ok endpoint, cacheInsert cache device_id endpoint)

/-- Mirror of `WindowsAudioController::get_mute_state` (`windows.rs:217`). -/
def win_get_mute_state (os : WinOs) (cache : EndpointCache) (device_id : String) :
    Except String Bool × EndpointCache :=
  match get_cached_endpoint_for_id os cache device_id with
  | (.error e, cache') => (.error e, cache')
  | (.ok endpoint, cache') =>
      match os.getMuteEp endpoint with
      | .error e => (.error e, cache')
      | .ok muted => (.ok muted, cache')

/-- Mirror of `WindowsAudioController::set_mute_state` (`windows.rs:227`):
try the cached endpoint, fall back on direct resolution + activation,
apply `SetMute`, and re-insert the endpoint into the cache. -/
def win_set_mute_state (os : WinOs) (cache : EndpointCache) (device_id : String)
    (muted : Bool) : Except String Unit × EndpointCache :=
  let resolved := get_cached_endpoint_for_id os cache device_id
  let cache1 := resolved.snd
  let epRes :=
    match resolved.fst with
    | .ok ep => Except.ok ep
    | .error _ =>
        let devRes :=
          if device_id == "default-mic" || device_id.isEmpty then os.defaultCapture
          else os.getDevice device_id
        match devRes with
        | .error e => Except.error e
        | .ok dev => os.activate dev
  match epRes with
  | .error e => (.error e, cache1)
  | .ok endpoint =>
      match os.setMuteEp endpoint muted with
      | .error e => (.error e, cache1)
      | .ok _ => (.ok (), cacheInsert cache1 device_id endpoint)

/-- Mirror of `clear_endpoint_cache` (`windows.rs:263`). -/
def clear_endpoint_cache (_cache : EndpointCache) : EndpointCache := []

/-- Device manager whose default capture device is `"devA"`. -/
def wOsDefaultA : WinOs where
  defaultCapture := .ok "devA"
  getDevice := fun d => .ok d
  activate := fun d => if d == "devA" then .ok 1 else .ok 2
  getMuteEp := fun ep => .ok (ep == 1)
  setMuteEp := fun _ _ => .ok ()

/-- The same machine after the OS default moved to `"devB"` (whose
endpoint 2 is unmuted while `"devA"`'s endpoint 1 stays muted). -/
def wOsDefaultB : WinOs where
  defaultCapture := .ok "devB"
  getDevice := fun d => .ok d
  activate := fun d => if d == "devA" then .ok 1 else .ok 2
  getMuteEp := fun ep => .ok (ep == 1)
  setMuteEp := fun _ _ => .ok ()

/-- Counterexample to C2: a `get_mute_state "default-mic"` call caches
the activated handle under the sentinel identity (`windows.rs:120`),
and after the OS default changes from `"devA"` to `"devB"` a second call
with the same id reuses that cached handle — reporting the old
default's mute state `true` — whereas re-resolving the then-current
default (as the claim requires, and as a cold cache shows) reports
`false`. -/
theorem default_mic_cached_counterexample :
    cacheFind (win_get_mute_state wOsDefaultA [] "default-mic").snd "default-mic"
      = some 1 ∧
    (win_get_mute_state wOsDefaultB
        (win_get_mute_state wOsDefaultA [] "default-mic").snd "default-mic").fst
      = .ok true ∧
    (win_get_mute_state wOsDefaultB [] "default-mic").fst = .ok false := by
  refine ⟨rfl, rfl, rfl⟩

/-- C2 as amended: on a cache miss, `get_mute_state`/`set_mute_state`
with id `""` or `"default-mic"` resolve the OS default current at call
time and cache the activated handle under that sentinel identity; on a
cache hit they reuse the cached handle without consulting the device
manager at all (the result is independent of the device manager's
current state), until the cache is cleared. -/
theorem default_mic_endpoint_cache_spec (os : WinOs) (cache : EndpointCache)
    (device_id : String) (hid : device_id = "default-mic" ∨ device_id = "") :
    (cacheFind cache device_id = none →
      get_cached_endpoint_for_id os cache device_id =
        match os.defaultCapture with
        | .error e => (.error e, cache)
        | .ok dev =>
            match os.activate dev with
            | .error e => (.error e, cache)
            | .ok endpoint => (.ok endpoint, cacheInsert cache device_id endpoint)) ∧
    (∀ ep, cacheFind cache device_id = some ep →
      ∀ os' : WinOs, get_cached_endpoint_for_id os' cache device_id = (.ok ep, cache)) ∧
    (∀ ep, cacheFind cache device_id = some ep →
      ∀ os' : WinOs, win_get_mute_state os' cache device_id = (os'.getMuteEp ep, cache)) := by
  have hsel : (device_id == "default-mic" || device_id.isEmpty) = true := by
    rcases hid with h | h <;> simp [h, String.isEmpty]
  refine ⟨?_, ?_, ?_⟩
  · intro hmiss
    simp [get_cached_endpoint_for_id, hmiss, hsel]
  · intro ep hhit os'
    simp [get_cached_endpoint_for_id, hhit]
  · intro ep hhit os'
    cases hmute : os'.getMuteEp ep with
    | ok b => simp [win_get_mute_state, get_cached_endpoint_for_id, hhit, hmute]
    | error e => simp [win_get_mute_state, get_cached_endpoint_for_id, hhit, hmute]

/-- Witness for the amended C2: a cold-cache call resolves the current
default (`"devA"`, endpoint 1) and caches it; a warm-cache call returns
the cached endpoint unchanged even under a different device manager. -/
theorem default_mic_endpoint_cache_spec_witness :
    get_cached_endpoint_for_id wOsDefaultA [] "default-mic" =
      (.ok 1, [("default-mic", 1)]) ∧
    get_cached_endpoint_for_id wOsDefaultB [("default-mic", 1)] "default-mic" =
      (.ok 1, [("default-mic", 1)]) := by
  constructor
  · have h := (default_mic_endpoint_cache_spec wOsDefaultA [] "default-mic"
      (Or.inl rfl)).1 rfl
    simpa [wOsDefaultA, cacheInsert] using h
  · exact (default_mic_endpoint_cache_spec wOsDefaultB [("default-mic", 1)]
      "default-mic" (Or.inl rfl)).2.1 1 rfl wOsDefaultB

/-! ### Command surface (`lib.rs`) -/

/-- Outcome of the `toggle_mute` command (`lib.rs:205`): its return
value, the published flag after the call, the actions performed on the
command thread before returning, and the actions of the detached
worker spawned by `apply_mute_async`, scheduled after the return. -/
structure ToggleOut where
  result : Except String Bool
  is_muted' : Bool
  mainTrace : List Action
  workerTrace : List Action

/-- Mirror of `apply_mute_async` (`lib.rs:173`): the detached worker
initializes its thread's audio subsystem, then applies the mute state
to every device id. -/
def apply_mute_async (device_ids : List String) (muted : Bool) : List Action :=
  Action.initThread ::
    device_ids.map (fun device_id => Action.hwSetMute device_id muted)

/-- Mirror of the `toggle_mute` command (`lib.rs:205`): toggle the
cached flag, resolve the profile's device ids, store/sound/emit/tray,
and hand the hardware applies to a detached worker. -/
def toggle_mute (ctrl? : Option Controller) (profile? : Option HotkeyProfile)
    (is_muted : Bool) : ToggleOut :=
  match ctrl?, profile? with
  | some controller, some profile =>
      let cached := is_muted
      let new_state := !cached
      let resolved := resolve_device_ids controller profile
      match resolved.fst with
      | .error e => ⟨.error e, is_muted, resolved.snd, []⟩
      | .ok device_ids =>
          ⟨.ok new_state, new_state,
           resolved.snd ++
             [Action.storeMuted new_state,
              Action.playSound (if new_state then "mute" else "unmute"),
              Action.emitMuteChanged new_state,
              Action.updateTray new_state],
           apply_mute_async device_ids new_state⟩
  | _, _ =>
      ⟨.error "No active profile or audio controller not initialized",
       is_muted, [], []⟩

/-- The full observable trace of a toggle: the detached worker's
actions follow the command's own trace (and hence its return). -/
def fullTrace (out : ToggleOut) : List Action :=
  out.mainTrace ++ out.workerTrace

/-- Outcome of the `set_mute` command (`lib.rs:242`): synchronous, so a
single trace. -/
structure SetMuteOut where
  result : Except String Unit
  is_muted' : Bool
  trace : List Action

/-- The `for device_id in device_ids` loop of `set_mute` (`lib.rs:250`):
apply the mute state to each device, propagating the first failure. -/
def set_mute_loop (controller : Controller) (muted : Bool) :
    List String → Except String Unit × List Action
  | [] => (.ok (), [])
  | device_id :: rest =>
      match controller.setMute device_id muted with
      | .error e => (.error e, [Action.hwSetMute device_id muted])
      | .ok _ =>
          let (r, tr) := set_mute_loop controller muted rest
          (r, Action.hwSetMute device_id muted :: tr)

/-- Mirror of the `set_mute` command (`lib.rs:242`). -/
def set_mute (muted : Bool) (silent : Option Bool) (ctrl? : Option Controller)
    (profile? : Option HotkeyProfile) (is_muted : Bool) : SetMuteOut :=
  match ctrl?, profile? with
  | some controller, some profile =>
      let resolved := resolve_device_ids controller profile
      match resolved.fst with
      | .error e => ⟨.error e, is_muted, resolved.snd⟩
      | .ok device_ids =>
          let applied := set_mute_loop controller muted device_ids
          match applied.fst with
          | .error e => ⟨.error e, is_muted, resolved.snd ++ applied.snd⟩
          | .ok _ =>
              ⟨.ok (), muted,
               resolved.snd ++ applied.snd ++
                 [Action.storeMuted muted] ++
                 (if !(silent.getD false) then
                    [Action.playSound (if muted then "mute" else "unmute")]
                  else []) ++
                 [Action.emitMuteChanged muted, Action.updateTray muted]⟩
  | _, _ =>
      ⟨.error "No active profile or audio controller not initialized",
       is_muted, []⟩

/-- Mirror of the `get_mute_state` command (`lib.rs:277`): the returned
value and the published flag after the call. -/
def get_mute_state_cmd (ctrl? : Option Controller)
    (profile? : Option HotkeyProfile) (is_muted : Bool) :
    Except String Bool × Bool :=
  match ctrl?, profile? with
  | some controller, some profile =>
      let cached := is_muted
      match (get_profile_mute_state controller profile cached).fst with
      | .ok system_muted => (.ok system_muted, system_muted)
      | .error _ => (.ok is_muted, is_muted)
  | _, _ => (.ok is_muted, is_muted)

/-! ### Background synchronizer poll tick (`lib.rs:831`) -/

/-- State carried by the poll loop across ticks: the published flag,
the previous tick's enumerated id list (`prev_device_ids`), and the
poll thread's endpoint cache. -/
structure PollState where
  is_muted : Bool
  prev_device_ids : Option (List String)
  endpoint_cache : EndpointCache

/-- One iteration of the poll loop body (`lib.rs:836`-`869`): snapshot
the profile (no-op if none); enumerate and, when the id list differs
from the previous tick's, clear the endpoint cache and emit
`devices-changed`; then recompute the aggregate mute state with the
published flag as fallback and, exactly when it differs, store it, emit
`mute-state-changed` and refresh the tray. -/
def poll_tick (controller : Controller) (profile? : Option HotkeyProfile)
    (st : PollState) : PollState × List Action :=
  match profile? with
  | none => (st, [])
  | some profile =>
      let (st1, tr1) :=
        match controller.enumerate with
        | .error _ => (st, [Action.enumerateDevices])
        | .ok devs =>
            let ids := devs.map (fun d => AudioDevice.id d)
            if st.prev_device_ids ≠ some ids then
              ({ st with
                  prev_device_ids := some ids,
                  endpoint_cache := clear_endpoint_cache st.endpoint_cache },
               [Action.enumerateDevices, Action.clearEndpointCache,
                Action.emitDevicesChanged ids])
            else
              (st, [Action.enumerateDevices])
      let cached := st1.is_muted
      let queried := get_profile_mute_state controller profile cached
      match queried.fst with
      | .error _ => (st1, tr1 ++ queried.snd)
      | .ok system_muted =>
          if st1.is_muted ≠ system_muted then
            ({ st1 with is_muted := system_muted },
             tr1 ++ queried.snd ++
               [Action.storeMuted system_muted,
                Action.emitMuteChanged system_muted,
                Action.updateTray system_muted])
          else
            (st1, tr1 ++ queried.snd)

/-- Predicate for `mute-state-changed` events in a trace. -/
def isMuteChangedEvent : Action → Bool
  | .emitMuteChanged _ => true
  | _ => false

/-- Predicate for `devices-changed` events in a trace. -/
def isDevicesChangedEvent : Action → Bool
  | .emitDevicesChanged _ => true
  | _ => false

/-- Predicate for feedback-cue invocations in a trace. -/
def isSoundCue : Action → Bool
  | .playSound _ => true
  | _ => false

/-- Predicate for platform audio calls in a trace. -/
def isPlatformCall : Action → Bool
  | .enumerateDevices => true
  | .hwGetMute _ => true
  | .hwSetMute _ _ => true
  | _ => false

theorem isPlatformCall_spec (a : Action) (h : isPlatformCall a = true) :
    isMuteChangedEvent a = false ∧ isDevicesChangedEvent a = false ∧
    isSoundCue a = false ∧ a ≠ Action.clearEndpointCache ∧
    (∀ b, a ≠ Action.storeMuted b) ∧ (∀ b, a ≠ Action.emitMuteChanged b) ∧
    (∀ b, a ≠ Action.updateTray b) ∧ (∀ s, a ≠ Action.playSound s) ∧
    (∀ ids, a ≠ Action.emitDevicesChanged ids) := by
  cases a <;>
    simp_all [isPlatformCall, isMuteChangedEvent, isDevicesChangedEvent, isSoundCue]

theorem resolve_trace_platform (controller : Controller) (profile : HotkeyProfile) :
    ∀ a ∈ (resolve_device_ids controller profile).snd, isPlatformCall a = true := by
  unfold resolve_device_ids
  by_cases h : profile_uses_all_devices profile
  · cases controller.enumerate <;> simp [h, isPlatformCall]
  · simp [h]

theorem resolve_trace_cases (controller : Controller) (profile : HotkeyProfile) :
    (resolve_device_ids controller profile).snd = [] ∨
    (resolve_device_ids controller profile).snd = [Action.enumerateDevices] := by
  unfold resolve_device_ids
  by_cases h : profile_uses_all_devices profile
  · cases controller.enumerate <;> simp [h]
  · simp [h]

theorem gpms_loop_trace_platform (controller : Controller) (fallback : Bool)
    (devices : List AudioDevice) :
    ∀ a ∈ (gpms_loop controller fallback devices).snd, isPlatformCall a = true := by
  induction devices with
  | nil => simp [gpms_loop]
  | cons d rest ih =>
      by_cases h : unwrapOr (controller.getMute d.id) fallback
      · simp only [gpms_loop, h, if_pos]
        intro a ha
        rcases List.mem_cons.mp ha with h' | h'
        · simp [h', isPlatformCall]
        · exact ih a h'
      · simp [gpms_loop, h, isPlatformCall]

theorem gpms_trace_platform (controller : Controller) (profile : HotkeyProfile)
    (fallback : Bool) :
    ∀ a ∈ (get_profile_mute_state controller profile fallback).snd,
      isPlatformCall a = true := by
  unfold get_profile_mute_state
  by_cases h : profile_uses_all_devices profile
  · cases henum : controller.enumerate with
    | error e => simp [h, isPlatformCall]
    | ok devices =>
        rcases devices with _ | ⟨d, rest⟩
        · simp [h, isPlatformCall]
        · intro a ha
          simp [h] at ha
          rcases ha with ha | ha
          · simp [ha, isPlatformCall]
          · exact gpms_loop_trace_platform controller fallback (d :: rest) a ha
  · cases profile.device_ids.head? with
    | some first_device => simp [h, isPlatformCall]
    | none => simp [h]

theorem countP_zero_of_platform (l : List Action)
    (hl : ∀ a ∈ l, isPlatformCall a = true) (f : Action → Bool)
    (hf : ∀ a, isPlatformCall a = true → f a = false) : l.countP f = 0 :=
  List.countP_eq_zero.mpr (fun a ha => by simp [hf a (hl a ha)])

/-- Counterexample to C3: in `toggle_mute` the device-id resolution
(the `enumerate` platform call of `resolve_device_ids`, `lib.rs:216`)
happens before the optimistic publish (`lib.rs:218`), not after it as
the claim orders them; here with an "all-mics" profile the command
trace starts with the enumeration and the store comes later. -/
theorem toggle_resolve_before_publish_counterexample :
    (toggle_mute (some wController) (some wProfileAll) false).mainTrace =
      [Action.enumerateDevices, Action.storeMuted true, Action.playSound "mute",
       Action.emitMuteChanged true, Action.updateTray true] ∧
    List.indexOf Action.enumerateDevices
        (toggle_mute (some wController) (some wProfileAll) false).mainTrace <
      List.indexOf (Action.storeMuted true)
        (toggle_mute (some wController) (some wProfileAll) false).mainTrace := by
  constructor
  · rfl
  · decide

/-- C3 as amended: `toggle_mute` computes `new = !cached` without any
mute re-query, resolves the profile's device ids (before publishing),
then publishes `new` (store, feedback cue, event, tray) and returns
`new`, handing the per-device `set_mute` applies to a detached worker
that first runs the per-thread subsystem initialization; every
hardware-apply call sits in the worker's trace, after the command's
whole trace and hence after the publish and the return. -/
theorem toggle_mute_optimistic_spec (controller : Controller)
    (profile : HotkeyProfile) (is_muted : Bool) (device_ids : List String)
    (rtr : List Action)
    (hres : resolve_device_ids controller profile = (.ok device_ids, rtr)) :
    (toggle_mute (some controller) (some profile) is_muted).result =
      .ok (!is_muted) ∧
    (toggle_mute (some controller) (some profile) is_muted).is_muted' =
      !is_muted ∧
    (toggle_mute (some controller) (some profile) is_muted).mainTrace =
      rtr ++ [Action.storeMuted (!is_muted),
        Action.playSound (if !is_muted then "mute" else "unmute"),
        Action.emitMuteChanged (!is_muted), Action.updateTray (!is_muted)] ∧
    (toggle_mute (some controller) (some profile) is_muted).workerTrace =
      Action.initThread ::
        device_ids.map (fun id => Action.hwSetMute id (!is_muted)) ∧
    (∀ d, Action.hwGetMute d ∉
      fullTrace (toggle_mute (some controller) (some profile) is_muted)) ∧
    (∀ d b, Action.hwSetMute d b ∉
      (toggle_mute (some controller) (some profile) is_muted).mainTrace) := by
  have hsnd : (resolve_device_ids controller profile).snd = rtr := by rw [hres]
  have hcases : rtr = [] ∨ rtr = [Action.enumerateDevices] := by
    rcases resolve_trace_cases controller profile with hc | hc <;>
      rw [hsnd] at hc
    · exact Or.inl hc
    · exact Or.inr hc
  have hmain : (toggle_mute (some controller) (some profile) is_muted).mainTrace =
      rtr ++ [Action.storeMuted (!is_muted),
        Action.playSound (if !is_muted then "mute" else "unmute"),
        Action.emitMuteChanged (!is_muted), Action.updateTray (!is_muted)] := by
    simp [toggle_mute, hres]
  have hworker : (toggle_mute (some controller) (some profile) is_muted).workerTrace =
      Action.initThread ::
        device_ids.map (fun id => Action.hwSetMute id (!is_muted)) := by
    simp [toggle_mute, hres, apply_mute_async]
  refine ⟨?_, ?_, hmain, hworker, ?_, ?_⟩
  · simp [toggle_mute, hres]
  · simp [toggle_mute, hres]
  · intro d
    rw [fullTrace, hmain, hworker]
    rcases hcases with hc | hc <;> subst hc <;> simp
  · intro d b
    rw [hmain]
    rcases hcases with hc | hc <;> subst hc <;> simp

/-- Witness for the amended C3 at concrete inputs. -/
theorem toggle_mute_optimistic_spec_witness :
    (toggle_mute (some wController) (some wProfileAll) false).result = .ok true ∧
    (toggle_mute (some wController) (some wProfileAll) false).workerTrace =
      [Action.initThread, Action.hwSetMute "idA" true, Action.hwSetMute "idB" true,
       Action.hwSetMute "idC" true] := by
  have h := toggle_mute_optimistic_spec wController wProfileAll false
    ["idA", "idB", "idC"] [Action.enumerateDevices] rfl
  exact ⟨by simpa using h.1, by simpa using h.2.2.2.1⟩

/-- A controller on which every hardware apply fails. -/
def wBadController : Controller where
  enumerate := .ok []
  getMute := fun _ => .error "DeviceNotFound"
  setMute := fun _ _ => .error "PlatformError"

/-- A profile listing a single stale device id. -/
def wProfileBad : HotkeyProfile := ⟨"p3", "Bad", "M", ["bad"], false⟩

theorem set_mute_loop_ok (controller : Controller) (muted : Bool)
    (device_ids : List String)
    (h : ∀ id ∈ device_ids, controller.setMute id muted = .ok ()) :
    set_mute_loop controller muted device_ids =
      (.ok (), device_ids.map (fun id => Action.hwSetMute id muted)) := by
  induction device_ids with
  | nil => simp [set_mute_loop]
  | cons d rest ih =>
      have hd : controller.setMute d muted = .ok () := h d (by simp)
      have ih' := ih (fun id hmem => h id (by simp [hmem]))
      simp [set_mute_loop, hd, ih']

theorem set_mute_loop_first_error (controller : Controller) (muted : Bool)
    (pre : List String) (d : String) (post : List String) (e : String)
    (hpre : ∀ id ∈ pre, controller.setMute id muted = .ok ())
    (hd : controller.setMute d muted = .error e) :
    (set_mute_loop controller muted (pre ++ d :: post)).fst = .error e := by
  induction pre with
  | nil => simp [set_mute_loop, hd]
  | cons p rest ih =>
      have hp : controller.setMute p muted = .ok () := hpre p (by simp)
      have ih' := ih (fun id hmem => hpre id (by simp [hmem]))
      simp only [List.cons_append, set_mute_loop, hp]
      simpa using ih'

theorem set_mute_loop_trace_platform (controller : Controller) (muted : Bool)
    (device_ids : List String) :
    ∀ a ∈ (set_mute_loop controller muted device_ids).snd,
      isPlatformCall a = true := by
  induction device_ids with
  | nil => simp [set_mute_loop]
  | cons d rest ih =>
      cases hd : controller.setMute d muted with
      | error e => simp [set_mute_loop, hd, isPlatformCall]
      | ok u =>
          intro a ha
          simp only [set_mute_loop, hd] at ha
          rcases List.mem_cons.mp ha with h' | h'
          · simp [h', isPlatformCall]
          · exact ih a h'

/-- C6: `set_mute` resolves the profile's device ids and applies the
hardware `set_mute_state` to each synchronously, returning the first
failure encountered across devices; on full success it stores the new
state, fires `mute-state-changed`, updates the tray, and triggers a
feedback cue exactly when `silent` is absent or `false`. -/
theorem set_mute_spec (muted : Bool) (silent : Option Bool)
    (controller : Controller) (profile : HotkeyProfile) (is_muted : Bool)
    (device_ids : List String) (rtr : List Action)
    (hres : resolve_device_ids controller profile = (.ok device_ids, rtr)) :
    (∀ pre d post e, device_ids = pre ++ d :: post →
      (∀ id ∈ pre, controller.setMute id muted = .ok ()) →
      controller.setMute d muted = .error e →
      (set_mute muted silent (some controller) (some profile) is_muted).result =
        .error e) ∧
    ((∀ id ∈ device_ids, controller.setMute id muted = .ok ()) →
      (set_mute muted silent (some controller) (some profile) is_muted).result =
        .ok () ∧
      (set_mute muted silent (some controller) (some profile) is_muted).is_muted' =
        muted ∧
      (set_mute muted silent (some controller) (some profile) is_muted).trace =
        rtr ++ device_ids.map (fun id => Action.hwSetMute id muted) ++
          [Action.storeMuted muted] ++
          (if !(silent.getD false) then
             [Action.playSound (if muted then "mute" else "unmute")]
           else []) ++
          [Action.emitMuteChanged muted, Action.updateTray muted] ∧
      ((set_mute muted silent (some controller) (some profile) is_muted).trace.countP
          isSoundCue = if silent.getD false then 0 else 1)) := by
  constructor
  · intro pre d post e hsplit hpre hd
    have hloop := set_mute_loop_first_error controller muted pre d post e hpre hd
    rw [← hsplit] at hloop
    simp [set_mute, hres, hloop]
  · intro hok
    have hloop := set_mute_loop_ok controller muted device_ids hok
    have hrtr0 : rtr.countP isSoundCue = 0 := by
      apply countP_zero_of_platform
      · have := resolve_trace_platform controller profile
        rw [hres] at this
        exact this
      · intro a ha
        exact (isPlatformCall_spec a ha).2.2.1
    have hhw0 : (device_ids.map (fun id => Action.hwSetMute id muted)).countP
        isSoundCue = 0 := by
      apply countP_zero_of_platform
      · intro a ha
        rcases List.mem_map.mp ha with ⟨x, _, hx⟩
        simp [← hx, isPlatformCall]
      · intro a ha
        exact (isPlatformCall_spec a ha).2.2.1
    refine ⟨?_, ?_, ?_, ?_⟩
    · simp [set_mute, hres, hloop]
    · simp [set_mute, hres, hloop]
    · simp [set_mute, hres, hloop]
    · have htr : (set_mute muted silent (some controller) (some profile)
          is_muted).trace =
          rtr ++ device_ids.map (fun id => Action.hwSetMute id muted) ++
            [Action.storeMuted muted] ++
            (if !(silent.getD false) then
               [Action.playSound (if muted then "mute" else "unmute")]
             else []) ++
            [Action.emitMuteChanged muted, Action.updateTray muted] := by
        simp [set_mute, hres, hloop]
      rw [htr]
      by_cases hs : silent.getD false <;>
        simp [hs, List.countP_append, hrtr0, hhw0, isSoundCue, List.countP_cons]

/-- Witness for C6 at concrete inputs: full success with
`silent = some true` updates state without a feedback cue, and a
failing device surfaces its error. -/
theorem set_mute_spec_witness :
    (set_mute true (some true) (some wController) (some wProfileOne) false).result =
      .ok () ∧
    (set_mute true (some true) (some wController) (some wProfileOne)
      false).is_muted' = true ∧
    (set_mute true (some true) (some wController) (some wProfileOne)
      false).trace.countP isSoundCue = 0 ∧
    (set_mute true none (some wBadController) (some wProfileBad) false).result =
      .error "PlatformError" := by
  have h := (set_mute_spec true (some true) wController wProfileOne false
    ["idC"] [] rfl).2 (by intro id hid; simp at hid; simp [hid, wController])
  have hbad := (set_mute_spec true none wBadController wProfileBad false
    ["bad"] [] rfl).1 [] "bad" [] "PlatformError" rfl (by simp)
    (by simp [wBadController])
  exact ⟨h.1, h.2.1, by simpa using h.2.2.2, hbad⟩

/-- C10: whenever `set_mute` returns an error — missing profile or
controller, failed resolution, or a failing per-device apply — the
published flag is unchanged and no store, event, tray update or
feedback cue happens. -/
theorem set_mute_error_no_publish (muted : Bool) (silent : Option Bool)
    (ctrl? : Option Controller) (profile? : Option HotkeyProfile)
    (is_muted : Bool) (e : String)
    (herr : (set_mute muted silent ctrl? profile? is_muted).result = .error e) :
    (set_mute muted silent ctrl? profile? is_muted).is_muted' = is_muted ∧
    (∀ b, Action.storeMuted b ∉
      (set_mute muted silent ctrl? profile? is_muted).trace) ∧
    (∀ b, Action.emitMuteChanged b ∉
      (set_mute muted silent ctrl? profile? is_muted).trace) ∧
    (∀ b, Action.updateTray b ∉
      (set_mute muted silent ctrl? profile? is_muted).trace) ∧
    (∀ s, Action.playSound s ∉
      (set_mute muted silent ctrl? profile? is_muted).trace) := by
  match ctrl?, profile? with
  | none, _ =>
      refine ⟨rfl, ?_, ?_, ?_, ?_⟩ <;> intro x <;> simp [set_mute]
  | some controller, none =>
      refine ⟨rfl, ?_, ?_, ?_, ?_⟩ <;> intro x <;> simp [set_mute]
  | some controller, some profile =>
      have hplat : ∀ a ∈ (set_mute muted silent (some controller) (some profile)
          is_muted).trace, isPlatformCall a = true := by
        cases hr : (resolve_device_ids controller profile).fst with
        | error er =>
            intro a ha
            simp only [set_mute, hr] at ha
            have := resolve_trace_platform controller profile
            exact this a ha
        | ok device_ids =>
            cases hl : (set_mute_loop controller muted device_ids).fst with
            | error el =>
                intro a ha
                simp only [set_mute, hr, hl] at ha
                rcases List.mem_append.mp ha with h' | h'
                · exact resolve_trace_platform controller profile a h'
                · exact set_mute_loop_trace_platform controller muted device_ids a h'
            | ok u =>
                exfalso
                simp [set_mute, hr, hl] at herr
      have hmut : (set_mute muted silent (some controller) (some profile)
          is_muted).is_muted' = is_muted := by
        cases hr : (resolve_device_ids controller profile).fst with
        | error er => simp [set_mute, hr]
        | ok device_ids =>
            cases hl : (set_mute_loop controller muted device_ids).fst with
            | error el => simp [set_mute, hr, hl]
            | ok u => exfalso; simp [set_mute, hr, hl] at herr
      refine ⟨hmut, ?_, ?_, ?_, ?_⟩ <;> intro x hx
      · exact absurd rfl ((isPlatformCall_spec _ (hplat _ hx)).2.2.2.2.1 x)
      · exact absurd rfl ((isPlatformCall_spec _ (hplat _ hx)).2.2.2.2.2.1 x)
      · exact absurd rfl ((isPlatformCall_spec _ (hplat _ hx)).2.2.2.2.2.2.1 x)
      · exact absurd rfl ((isPlatformCall_spec _ (hplat _ hx)).2.2.2.2.2.2.2.1 x)

/-- Witness for C10: a failing device apply returns its error while the
published flag stays `false` and the trace holds no store or event. -/
theorem set_mute_error_no_publish_witness :
    (set_mute true none (some wBadController) (some wProfileBad) false).result =
      .error "PlatformError" ∧
    (set_mute true none (some wBadController) (some wProfileBad)
      false).is_muted' = false ∧
    Action.emitMuteChanged true ∉
      (set_mute true none (some wBadController) (some wProfileBad) false).trace := by
  have herr : (set_mute true none (some wBadController) (some wProfileBad)
      false).result = .error "PlatformError" := rfl
  have h := set_mute_error_no_publish true none (some wBadController)
    (some wProfileBad) false "PlatformError" herr
  exact ⟨herr, h.1, h.2.2.1 true⟩

/-- C7: the `get_mute_state` command always returns `Ok` of the flag it
leaves published: with a controller and active profile it computes the
aggregate with the cached value as fallback and writes the result back
before returning it; on aggregate failure, or without controller or
profile, it returns the cached value unchanged. -/
theorem get_mute_state_cmd_spec (ctrl? : Option Controller)
    (profile? : Option HotkeyProfile) (is_muted : Bool) :
    (get_mute_state_cmd ctrl? profile? is_muted).fst =
      .ok (get_mute_state_cmd ctrl? profile? is_muted).snd ∧
    (∀ controller profile, ctrl? = some controller → profile? = some profile →
      (∀ m, (get_profile_mute_state controller profile is_muted).fst = .ok m →
        (get_mute_state_cmd ctrl? profile? is_muted).snd = m) ∧
      (∀ e, (get_profile_mute_state controller profile is_muted).fst = .error e →
        (get_mute_state_cmd ctrl? profile? is_muted).snd = is_muted)) ∧
    ((ctrl? = none ∨ profile? = none) →
      (get_mute_state_cmd ctrl? profile? is_muted).snd = is_muted) := by
  match ctrl?, profile? with
  | none, _ =>
      refine ⟨rfl, ?_, fun _ => rfl⟩
      intro controller profile hc
      exact absurd hc (by simp)
  | some c, none =>
      refine ⟨rfl, ?_, fun _ => rfl⟩
      intro controller profile _ hp
      exact absurd hp (by simp)
  | some c, some p =>
      refine ⟨?_, ?_, ?_⟩
      · cases hq : (get_profile_mute_state c p is_muted).fst with
        | ok m => simp [get_mute_state_cmd, hq]
        | error e => simp [get_mute_state_cmd, hq]
      · intro controller profile hc hp
        cases hc; cases hp
        constructor
        · intro m hm
          simp [get_mute_state_cmd, hm]
        · intro e he
          simp [get_mute_state_cmd, he]
      · rintro (h | h) <;> exact absurd h (by simp)

/-- Witness for C7 at concrete inputs: a live aggregate `false`
overwrites a cached `true` and is returned; without a profile the
cached value is returned unchanged. -/
theorem get_mute_state_cmd_spec_witness :
    (get_mute_state_cmd (some wController) (some wProfileAll) true).fst =
      .ok false ∧
    (get_mute_state_cmd (some wController) none true).fst = .ok true := by
  constructor
  · have h := ((get_mute_state_cmd_spec (some wController) (some wProfileAll)
      true).2.1 wController wProfileAll rfl rfl).1 false (by rfl)
    rw [(get_mute_state_cmd_spec (some wController) (some wProfileAll) true).1, h]
  · have h := (get_mute_state_cmd_spec (some wController) none true).2.2
      (Or.inr rfl)
    rw [(get_mute_state_cmd_spec (some wController) none true).1, h]

/-! ### Poll tick theorems -/

/-- The device-change-detection phase of a tick, split out of
`poll_tick` for the proofs below. -/
def poll_detect (controller : Controller) (st : PollState) :
    PollState × List Action :=
  match controller.enumerate with
  | .error _ => (st, [Action.enumerateDevices])
  | .ok devs =>
      let ids := devs.map (fun d => AudioDevice.id d)
      if st.prev_device_ids ≠ some ids then
        ({ st with
            prev_device_ids := some ids,
            endpoint_cache := clear_endpoint_cache st.endpoint_cache },
         [Action.enumerateDevices, Action.clearEndpointCache,
          Action.emitDevicesChanged ids])
      else
        (st, [Action.enumerateDevices])

theorem poll_tick_eq (controller : Controller) (profile : HotkeyProfile)
    (st : PollState) :
    poll_tick controller (some profile) st =
      (let (st1, tr1) := poll_detect controller st
       let queried := get_profile_mute_state controller profile st1.is_muted
       match queried.fst with
       | .error _ => (st1, tr1 ++ queried.snd)
       | .ok system_muted =>
           if st1.is_muted ≠ system_muted then
             ({ st1 with is_muted := system_muted },
              tr1 ++ queried.snd ++
                [Action.storeMuted system_muted,
                 Action.emitMuteChanged system_muted,
                 Action.updateTray system_muted])
           else
             (st1, tr1 ++ queried.snd)) := by
  simp only [poll_tick, poll_detect]

theorem poll_detect_is_muted (controller : Controller) (st : PollState) :
    (poll_detect controller st).fst.is_muted = st.is_muted := by
  unfold poll_detect
  cases controller.enumerate with
  | error e => rfl
  | ok devs =>
      by_cases h : st.prev_device_ids ≠ some (devs.map (fun d => AudioDevice.id d)) <;>
        simp [h]

theorem poll_detect_trace (controller : Controller) (st : PollState) :
    ∀ a ∈ (poll_detect controller st).snd,
      isMuteChangedEvent a = false ∧ isSoundCue a = false ∧
      (∀ b, a ≠ Action.storeMuted b) := by
  unfold poll_detect
  cases controller.enumerate with
  | error e => simp [isMuteChangedEvent, isSoundCue]
  | ok devs =>
      by_cases h : st.prev_device_ids ≠ some (devs.map (fun d => AudioDevice.id d)) <;>
        simp [h, isMuteChangedEvent, isSoundCue]

/-- C4: on a poll tick with an active profile whose aggregate query
succeeds, exactly when the result differs from the published flag the
tick stores it, fires exactly one `mute-state-changed` event and
refreshes the tray; when it equals, no `mute-state-changed` event fires
and the flag is unchanged; in no case does the tick play a feedback
cue. -/
theorem poll_tick_mute_sync_spec (controller : Controller)
    (profile : HotkeyProfile) (st : PollState) (m : Bool)
    (hm : (get_profile_mute_state controller profile st.is_muted).fst = .ok m) :
    (m ≠ st.is_muted →
      (poll_tick controller (some profile) st).fst.is_muted = m ∧
      (poll_tick controller (some profile) st).snd.countP isMuteChangedEvent = 1 ∧
      Action.emitMuteChanged m ∈ (poll_tick controller (some profile) st).snd ∧
      Action.updateTray m ∈ (poll_tick controller (some profile) st).snd) ∧
    (m = st.is_muted →
      (poll_tick controller (some profile) st).fst.is_muted = st.is_muted ∧
      (poll_tick controller (some profile) st).snd.countP isMuteChangedEvent = 0) ∧
    (poll_tick controller (some profile) st).snd.countP isSoundCue = 0 := by
  rcases hpd : poll_detect controller st with ⟨st1, tr1⟩
  have hdm : st1.is_muted = st.is_muted := by
    have h := poll_detect_is_muted controller st
    rw [hpd] at h
    exact h
  have hdtr : ∀ a ∈ tr1, isMuteChangedEvent a = false ∧ isSoundCue a = false ∧
      (∀ b, a ≠ Action.storeMuted b) := by
    have h := poll_detect_trace controller st
    rw [hpd] at h
    exact h
  have hd0 : ∀ f : Action → Bool, (∀ a ∈ tr1, f a = false) → tr1.countP f = 0 :=
    fun f hf => List.countP_eq_zero.mpr (fun a ha => by simp [hf a ha])
  have hq0 : ∀ f : Action → Bool, (∀ a, isPlatformCall a = true → f a = false) →
      (get_profile_mute_state controller profile st1.is_muted).snd.countP f = 0 :=
    fun f hf =>
      countP_zero_of_platform _ (gpms_trace_platform controller profile _) f hf
  have hqm : (get_profile_mute_state controller profile st1.is_muted).fst =
      .ok m := by
    rw [hdm]; exact hm
  have hdz := hd0 isMuteChangedEvent (fun a ha => (hdtr a ha).1)
  have hqz := hq0 isMuteChangedEvent (fun a ha => (isPlatformCall_spec a ha).1)
  have hds := hd0 isSoundCue (fun a ha => (hdtr a ha).2.1)
  have hqs := hq0 isSoundCue (fun a ha => (isPlatformCall_spec a ha).2.2.1)
  rw [poll_tick_eq, hpd]
  simp only [hqm]
  refine ⟨?_, ?_, ?_⟩
  · intro hne
    have hcond : st1.is_muted ≠ m := by
      rw [hdm]; exact fun h => hne h.symm
    rw [if_pos hcond]
    refine ⟨rfl, ?_, by simp, by simp⟩
    simp [List.countP_append, hdz, hqz, List.countP_cons, isMuteChangedEvent]
  · intro heq
    have hcond : ¬ st1.is_muted ≠ m := not_not_intro (by rw [hdm, heq])
    rw [if_neg hcond]
    exact ⟨hdm, by simp [List.countP_append, hdz, hqz]⟩
  · by_cases hcond : st1.is_muted ≠ m
    · rw [if_pos hcond]
      simp [List.countP_append, hds, hqs, List.countP_cons, isSoundCue]
    · rw [if_neg hcond]
      simp [List.countP_append, hds, hqs]

/-- Witness for C4: with published flag `true` and live aggregate
`false`, the tick stores `false` and fires exactly one
`mute-state-changed` event, with no feedback cue; with matching states
no event fires. -/
theorem poll_tick_mute_sync_spec_witness :
    (poll_tick wController (some wProfileAll)
      ⟨true, some ["idA", "idB", "idC"], []⟩).fst.is_muted = false ∧
    (poll_tick wController (some wProfileAll)
      ⟨true, some ["idA", "idB", "idC"], []⟩).snd.countP isMuteChangedEvent = 1 ∧
    (poll_tick wController (some wProfileAll)
      ⟨true, some ["idA", "idB", "idC"], []⟩).snd.countP isSoundCue = 0 ∧
    (poll_tick wController (some wProfileAll)
      ⟨false, some ["idA", "idB", "idC"], []⟩).snd.countP isMuteChangedEvent = 0 := by
  have h := poll_tick_mute_sync_spec wController wProfileAll
    ⟨true, some ["idA", "idB", "idC"], []⟩ false rfl
  have h2 := h.1 (by decide)
  have h' := poll_tick_mute_sync_spec wController wProfileAll
    ⟨false, some ["idA", "idB", "idC"], []⟩ false rfl
  exact ⟨h2.1, h2.2.1, h.2.2, (h'.2.1 rfl).2⟩

theorem poll_detect_spec (controller : Controller) (st : PollState)
    (devs : List AudioDevice) (p : List String)
    (henum : controller.enumerate = .ok devs)
    (hprev : st.prev_device_ids = some p) :
    (p ≠ devs.map (fun d => AudioDevice.id d) →
      poll_detect controller st =
        ({ st with
            prev_device_ids := some (devs.map (fun d => AudioDevice.id d)),
            endpoint_cache := [] },
         [Action.enumerateDevices, Action.clearEndpointCache,
          Action.emitDevicesChanged (devs.map (fun d => AudioDevice.id d))])) ∧
    (p = devs.map (fun d => AudioDevice.id d) →
      poll_detect controller st = (st, [Action.enumerateDevices])) := by
  constructor
  · intro hne
    have hcond : st.prev_device_ids ≠ some (devs.map (fun d => AudioDevice.id d)) := by
      rw [hprev]
      simp [hne]
    simp [poll_detect, henum, hcond, clear_endpoint_cache]
  · intro heq
    have hcond : ¬ st.prev_device_ids ≠ some (devs.map (fun d => AudioDevice.id d)) := by
      rw [hprev, heq]
      simp
    simp [poll_detect, henum, hcond]

theorem poll_tick_after_detect (controller : Controller)
    (profile : HotkeyProfile) (st : PollState) :
    (poll_tick controller (some profile) st).fst.prev_device_ids =
      (poll_detect controller st).fst.prev_device_ids ∧
    (poll_tick controller (some profile) st).fst.endpoint_cache =
      (poll_detect controller st).fst.endpoint_cache ∧
    ∃ tail, (poll_tick controller (some profile) st).snd =
      (poll_detect controller st).snd ++ tail ∧
      tail.countP isDevicesChangedEvent = 0 ∧
      Action.clearEndpointCache ∉ tail := by
  rcases hpd : poll_detect controller st with ⟨st1, tr1⟩
  have hq0 : (get_profile_mute_state controller profile st1.is_muted).snd.countP
      isDevicesChangedEvent = 0 :=
    countP_zero_of_platform _ (gpms_trace_platform controller profile _) _
      (fun a ha => (isPlatformCall_spec a ha).2.1)
  have hqc : Action.clearEndpointCache ∉
      (get_profile_mute_state controller profile st1.is_muted).snd := by
    intro hmem
    exact absurd rfl
      (isPlatformCall_spec _ (gpms_trace_platform controller profile _ _ hmem)).2.2.2.1
  rw [poll_tick_eq, hpd]
  cases hqf : (get_profile_mute_state controller profile st1.is_muted).fst with
  | error e =>
      refine ⟨?_, ?_,
        ⟨(get_profile_mute_state controller profile st1.is_muted).snd,
         ?_, hq0, hqc⟩⟩ <;> simp [hqf]
  | ok sm =>
      by_cases hcond : st1.is_muted ≠ sm
      · refine ⟨?_, ?_,
          ⟨(get_profile_mute_state controller profile st1.is_muted).snd ++
            [Action.storeMuted sm, Action.emitMuteChanged sm,
             Action.updateTray sm], ?_, ?_, ?_⟩⟩
        · simp [hqf, hcond]
        · simp [hqf, hcond]
        · simp [hqf, hcond]
        · simp [List.countP_append, hq0, List.countP_cons, isDevicesChangedEvent]
        · simp [hqc]
      · refine ⟨?_, ?_,
          ⟨(get_profile_mute_state controller profile st1.is_muted).snd,
           ?_, hq0, hqc⟩⟩ <;> simp [hqf, hcond]

/-- C5: on a poll tick with an active profile, a prior enumerated id
list, and a successful enumeration, exactly when the id list changed
the tick empties the endpoint cache wholesale, records the new list,
and fires exactly one `devices-changed` event carrying the complete new
id list; when the id list is unchanged no `devices-changed` event fires,
no cache invalidation happens, and the recorded list is unchanged. -/
theorem poll_tick_device_change_spec (controller : Controller)
    (profile : HotkeyProfile) (st : PollState) (devs : List AudioDevice)
    (p : List String) (henum : controller.enumerate = .ok devs)
    (hprev : st.prev_device_ids = some p) :
    (p ≠ devs.map (fun d => AudioDevice.id d) →
      (poll_tick controller (some profile) st).fst.endpoint_cache = [] ∧
      (poll_tick controller (some profile) st).fst.prev_device_ids =
        some (devs.map (fun d => AudioDevice.id d)) ∧
      (poll_tick controller (some profile) st).snd.countP
        isDevicesChangedEvent = 1 ∧
      Action.emitDevicesChanged (devs.map (fun d => AudioDevice.id d)) ∈
        (poll_tick controller (some profile) st).snd ∧
      Action.clearEndpointCache ∈ (poll_tick controller (some profile) st).snd) ∧
    (p = devs.map (fun d => AudioDevice.id d) →
      (poll_tick controller (some profile) st).fst.endpoint_cache =
        st.endpoint_cache ∧
      (poll_tick controller (some profile) st).fst.prev_device_ids =
        st.prev_device_ids ∧
      (poll_tick controller (some profile) st).snd.countP
        isDevicesChangedEvent = 0 ∧
      Action.clearEndpointCache ∉ (poll_tick controller (some profile) st).snd) := by
  obtain ⟨hprev', hcache', tail, htr, htail0, htailc⟩ :=
    poll_tick_after_detect controller profile st
  constructor
  · intro hne
    have hpd := (poll_detect_spec controller st devs p henum hprev).1 hne
    refine ⟨?_, ?_, ?_, ?_, ?_⟩
    · rw [hcache', hpd]
    · rw [hprev', hpd]
    · rw [htr, hpd]
      simp [List.countP_append, htail0, List.countP_cons, isDevicesChangedEvent]
    · rw [htr, hpd]
      simp
    · rw [htr, hpd]
      simp
  · intro heq
    have hpd := (poll_detect_spec controller st devs p henum hprev).2 heq
    refine ⟨?_, ?_, ?_, ?_⟩
    · rw [hcache', hpd]
    · rw [hprev', hpd]
    · rw [htr, hpd]
      simp [List.countP_append, htail0, isDevicesChangedEvent]
    · rw [htr, hpd]
      simp [htailc]

/-- Witness for C5: ids [A,B] then [A,B,C] across ticks fire exactly
one `devices-changed` with the full new list and clear the cache; the
unchanged list fires none and keeps the cache. -/
theorem poll_tick_device_change_spec_witness :
    (poll_tick wController (some wProfileAll)
      ⟨false, some ["idA", "idB"], [("idA", 7)]⟩).fst.endpoint_cache = [] ∧
    (poll_tick wController (some wProfileAll)
      ⟨false, some ["idA", "idB"], [("idA", 7)]⟩).snd.countP
        isDevicesChangedEvent = 1 ∧
    Action.emitDevicesChanged ["idA", "idB", "idC"] ∈
      (poll_tick wController (some wProfileAll)
        ⟨false, some ["idA", "idB"], [("idA", 7)]⟩).snd ∧
    (poll_tick wController (some wProfileAll)
      ⟨false, some ["idA", "idB", "idC"], [("idA", 7)]⟩).fst.endpoint_cache =
        [("idA", 7)] ∧
    (poll_tick wController (some wProfileAll)
      ⟨false, some ["idA", "idB", "idC"], [("idA", 7)]⟩).snd.countP
        isDevicesChangedEvent = 0 := by
  have h := (poll_tick_device_change_spec wController wProfileAll
    ⟨false, some ["idA", "idB"], [("idA", 7)]⟩ [wDevA, wDevB, wDevC]
    ["idA", "idB"] rfl rfl).1 (by decide)
  have h' := (poll_tick_device_change_spec wController wProfileAll
    ⟨false, some ["idA", "idB", "idC"], [("idA", 7)]⟩ [wDevA, wDevB, wDevC]
    ["idA", "idB", "idC"] rfl rfl).2 (by decide)
  exact ⟨h.1, h.2.2.1, by simpa using h.2.2.2.1, h'.1, h'.2.2.1⟩

end TogMic
